import Mathlib

/-!
Shallow embedding of the rowmetrics tool (src/main.go): the snapshot maps,
the delta engine, dialect query construction, the collection phase, the run
orchestration, and the counts-YAML save/load pipeline.

Go maps `map[string]int` are embedded as association lists with a first-match
lookup; Go `int` (64-bit) arithmetic is embedded as `Int` with an explicit
wrap into the signed 64-bit range where the code subtracts.
-/

namespace RowMetrics

/-- Severity of a log line, as encoded in the message prefixes of main.go. -/
inductive Sev
  | info
  | warn
  | error
  deriving DecidableEq, Repr

/-- One log line: severity plus message text. -/
structure LogEvent where
  sev : Sev
  msg : String
  deriving DecidableEq, Repr

/-- A Go `map[string]int` as an association list (keys unique in any map the
Go runtime can produce); read with `lookupA`. -/
abbrev CountMap := List (String × Int)

/-- First-match lookup, the embedding of a Go map read `m[k]`. -/
def lookupA {α : Type} (k : String) : List (String × α) → Option α
  | [] => none
  | p :: rest => if p.1 = k then some p.2 else lookupA k rest

/-- Go map assignment `m[k] = v`: replace the binding if present, else append. -/
def insertMap (m : CountMap) (k : String) (v : Int) : CountMap :=
  match m with
  | [] => [(k, v)]
  | p :: rest => if p.1 = k then (k, v) :: rest else p :: insertMap rest k v

/-- Wrap an integer into the signed 64-bit range, the value a Go `int`
computation produces. -/
def wrap64 (x : Int) : Int := (x + 2 ^ 63) % 2 ^ 64 - 2 ^ 63

/-- countCollection from main.go: the two per-table counter maps of one
database snapshot (`Increment` = auto-increment watermarks, `Row` =
approximate row counts). -/
structure countCollection where
  Increment : CountMap
  Row : CountMap
  deriving DecidableEq, Repr

/-- tableConfig from main.go: the two configured table-name sets. -/
structure tableConfig where
  Increment : List String
  Row : List String
  deriving DecidableEq, Repr

/-- databaseConfig from main.go: one configured database target. -/
structure databaseConfig where
  Name : String
  Host : String
  «Type» : String
  User : String
  Password : String
  Database : String
  Schema : String
  Tables : tableConfig
  deriving DecidableEq, Repr

/-- One iteration of the loops of getCountCollectionDifference (main.go
lines 459-479): the difference entry the loop writes for one minuend key. -/
def diffEntry (subtrahend : CountMap) (p : String × Int) : String × Int :=
  match lookupA p.1 subtrahend with
  | some s => (p.1, wrap64 (p.2 - s))
  | none => (p.1, 0)

/-- getCountCollectionDifference from main.go lines 452-483: for every key of
the minuend, subtract the subtrahend count when the key is present there,
else record 0. -/
def getCountCollectionDifference (minuend subtrahend : countCollection) : countCollection where
  Increment := minuend.Increment.map (diffEntry subtrahend.Increment)
  Row := minuend.Row.map (diffEntry subtrahend.Row)

/-- The placeholder list sqlx.In substitutes for a slice-bound bindvar. -/
def placeholders : Nat → String
  | 0 => ""
  | 1 => "?"
  | n + 2 => "?, " ++ placeholders (n + 1)

/-- Split a character list at the first slice bindvar `(?)`, keeping what
stands before and after it. -/
def splitAtMarker : List Char → Option (List Char × List Char)
  | '(' :: '?' :: ')' :: rest => some ([], rest)
  | c :: rest =>
    match splitAtMarker rest with
    | some p => some (c :: p.1, p.2)
    | none => none
  | [] => none

/-- sqlx.In as used in main.go: expand the slice-bound `(?)` of the query into
one placeholder per table, flattening the arguments to the table names
followed by the schema; an empty slice is an error. -/
def sqlxIn (query : String) (tables : List String) (schema : String) :
    Except String (String × List String) :=
  if tables = [] then Except.error "empty slice passed into IN clause"
  else
    match splitAtMarker query.data with
    | some p =>
        Except.ok (String.mk p.1 ++ "(" ++ placeholders tables.length ++ ")" ++ String.mk p.2,
          tables ++ [schema])
    | none => Except.error "number of bindVars does not match number of arguments"

/-- sqlx.Rebind with sqlx.DOLLAR: replace each successive `?` with `$1`,
`$2`, and so on. -/
def rebindChars : List Char → Nat → List Char
  | [], _ => []
  | c :: rest, n =>
    if c = '?' then '$' :: (toString n).data ++ rebindChars rest (n + 1)
    else c :: rebindChars rest n

/-- sqlx.Rebind(sqlx.DOLLAR, q) from main.go lines 344 and 354. -/
def rebindDollar (q : String) : String := String.mk (rebindChars q.data 1)

/-- MySQL increment base query, main.go line 320. -/
def mysqlIncrementBase : String :=
  "SELECT `TABLE_NAME`, `AUTO_INCREMENT` FROM information_schema.TABLES WHERE TABLE_NAME IN (?) AND TABLE_SCHEMA = ?"

/-- MySQL row base query, main.go line 328. -/
def mysqlRowBase : String :=
  "SELECT `TABLE_NAME`, `TABLE_ROWS` FROM information_schema.TABLES WHERE TABLE_NAME IN (?) AND TABLE_SCHEMA = ?"

/-- PostgreSQL statistics-view base query, used for BOTH counter kinds,
main.go lines 339 and 349. -/
def pgStatBase : String :=
  "SELECT relname,n_live_tup FROM pg_stat_user_tables WHERE relname IN (?) AND schemaname = ?"

/-- Default-dialect increment base query, main.go line 360. -/
def defaultIncrementBase : String :=
  "SELECT TABLE_NAME,AUTO_INCREMENT FROM information_schema.TABLES WHERE TABLE_NAME IN (?) AND TABLE_SCHEMA = ?"

/-- Default-dialect row base query, main.go line 368. -/
def defaultRowBase : String :=
  "SELECT TABLE_NAME,TABLE_ROWS FROM information_schema.TABLES WHERE TABLE_NAME IN (?) AND TABLE_SCHEMA = ?"

/-- What the query-building phase of getCountCollection produces for one
counter kind in a MySQL or default branch: query text, flattened arguments,
and any log lines emitted while assembling (main.go lines 318-332, 358-372). -/
def buildOne (base : String) (tables : List String) (schema : String) (kindWord : String) :
    String × List String × List LogEvent :=
  if tables = [] then ("", [], [])
  else
    match sqlxIn base tables schema with
    | Except.ok p => (p.1, p.2, [])
    | Except.error e =>
        ("", [],
          [⟨Sev.error, "Failed to assemble " ++ kindWord ++ " query interface: " ++ e⟩])

/-- Same for the PostgreSQL branch, which additionally rebinds the query to
dollar placeholders (main.go lines 337-355). -/
def buildOnePg (base : String) (tables : List String) (schema : String) (kindWord : String) :
    String × List String × List LogEvent :=
  if tables = [] then ("", [], [])
  else
    let r :=
      match sqlxIn base tables schema with
      | Except.ok p => (p.1, p.2, ([] : List LogEvent))
      | Except.error e =>
          ("", [],
            [⟨Sev.error, "Failed to assemble " ++ kindWord ++ " query interface: " ++ e⟩])
    (rebindDollar r.1, r.2.1, r.2.2)

/-- Result of the query-building phase of getCountCollection. -/
structure BuildResult where
  incrementQuery : String
  incrementArgs : List String
  rowQuery : String
  rowArgs : List String
  logs : List LogEvent
  deriving Repr

/-- The query-building phase of getCountCollection, main.go lines 316-373:
branch on the configured type string (note: on `dbConfig.Type`, not on the
defaulted type), assembling each query only when its table set is non-empty. -/
def buildQueries (dbConfig : databaseConfig) (dbSchema : String) : BuildResult :=
  if dbConfig.«Type» = "mysql" then
    let i := buildOne mysqlIncrementBase dbConfig.Tables.Increment dbSchema "increment"
    let r := buildOne mysqlRowBase dbConfig.Tables.Row dbSchema "row"
    ⟨i.1, i.2.1, r.1, r.2.1, i.2.2 ++ r.2.2⟩
  else if dbConfig.«Type» = "postgres" then
    let i := buildOnePg pgStatBase dbConfig.Tables.Increment dbSchema "increment"
    let r := buildOnePg pgStatBase dbConfig.Tables.Row dbSchema "row"
    ⟨i.1, i.2.1, r.1, r.2.1, i.2.2 ++ r.2.2⟩
  else
    let i := buildOne defaultIncrementBase dbConfig.Tables.Increment dbSchema "increment"
    let r := buildOne defaultRowBase dbConfig.Tables.Row dbSchema "row"
    ⟨i.1, i.2.1, r.1, r.2.1, i.2.2 ++ r.2.2⟩

/-- The part of pgStatBase that stands before the slice bindvar. -/
def pgStatPre : String := "SELECT relname,n_live_tup FROM pg_stat_user_tables WHERE relname IN "

/-- The part of pgStatBase that stands after the slice bindvar. -/
def pgStatPost : String := " AND schemaname = ?"

/-- The statistics-view query shape of the spec for POSTGRES targets: live
tuple count per relation from pg_stat_user_tables, with one placeholder per
requested relation, rebound to dollar placeholders. -/
def pgStatQueryShape (n : Nat) : String :=
  rebindDollar (pgStatPre ++ "(" ++ placeholders n ++ ")" ++ pgStatPost)

/-- Which of the two query call sites of getCountCollection executed a query
(main.go lines 375-408 and 410-444). -/
inductive QueryKind
  | increment
  | row
  deriving DecidableEq, Repr

/-- One result row as handed to rows.Scan: either a scan failure or a
(table name, count) pair. -/
inductive RowResult
  | scanErr (msg : String)
  | ok (tableName : String) (tableCount : Int)
  deriving DecidableEq, Repr

/-- The database as getCountCollection observes it: whether sql.Open fails,
and what each executed query returns (an error, or a list of result rows). -/
structure DBEnv where
  openErr : Option String
  query : String → List String → Except String (List RowResult)

/-- What one call of getCountCollection produces: the counts, the queries it
actually executed, the log lines it emitted, and the returned error. -/
structure CollectResult where
  cc : countCollection
  executed : List (QueryKind × String × List String)
  logs : List LogEvent
  err : Option String

/-- The rows.Next/rows.Scan loop of getCountCollection: a scan failure skips
the row with an ERROR log, a scanned row is written into the map with an
INFO log (main.go lines 383-406, 419-442). -/
def scanRows (dbName : String) (rs : List RowResult) (m : CountMap) (logs : List LogEvent) :
    CountMap × List LogEvent :=
  match rs with
  | [] => (m, logs)
  | RowResult.scanErr e :: rest =>
      scanRows dbName rest m
        (logs ++ [⟨Sev.error, "Failed to obtain values in database " ++ dbName ++ ": " ++ e⟩])
  | RowResult.ok t c :: rest =>
      scanRows dbName rest (insertMap m t c)
        (logs ++ [⟨Sev.info, "Obtained value in database " ++ dbName ++ " for table " ++ t⟩])

/-- One query block of getCountCollection (main.go lines 375-408 or 410-444):
run the query only when its text and arguments are non-empty; a query error
is logged, never returned. -/
def runQueryPhase (kind : QueryKind) (q : String) (args : List String) (env : DBEnv)
    (m : CountMap) (dbName : String) :
    CountMap × List (QueryKind × String × List String) × List LogEvent :=
  if q ≠ "" ∧ args ≠ [] then
    match env.query q args with
    | Except.error e =>
        (m, [(kind, q, args)],
          [⟨Sev.error, "Failed to query database " ++ dbName ++ ": " ++ e⟩])
    | Except.ok rs =>
        let s := scanRows dbName rs m []
        (s.1, [(kind, q, args)], s.2)
  else (m, [], [])

/-- The dialect-type default of getCountCollection, main.go lines 264-271:
an unset type means MySQL. -/
def resolveDbType (dbConfig : databaseConfig) : String :=
  if dbConfig.«Type» = "" then "mysql" else dbConfig.«Type»

/-- The schema default of getCountCollection, main.go lines 273-289: an
unset schema defaults to the database name for MySQL, `public` for
PostgreSQL, and the target name otherwise. -/
def resolveSchema (dbConfig : databaseConfig) : String :=
  if dbConfig.Schema = "" then
    if resolveDbType dbConfig = "mysql" then dbConfig.Database
    else if resolveDbType dbConfig = "postgres" then "public"
    else dbConfig.Name
  else dbConfig.Schema

/-- getCountCollection from main.go lines 254-448: resolve type and schema
defaults, open the connection, build the dialect queries, and run each
non-suppressed query, collecting counts into the two initialized maps.
Only an sql.Open failure is returned as an error. -/
def getCountCollection (dbConfig : databaseConfig) (env : DBEnv) : CollectResult :=
  match env.openErr with
  | some e => ⟨⟨[], []⟩, [], [], some e⟩
  | none =>
    let b := buildQueries dbConfig (resolveSchema dbConfig)
    let i := runQueryPhase QueryKind.increment b.incrementQuery b.incrementArgs env [] dbConfig.Name
    let r := runQueryPhase QueryKind.row b.rowQuery b.rowArgs env [] dbConfig.Name
    ⟨⟨i.1, r.1⟩, i.2.1 ++ r.2.1, b.logs ++ i.2.2 ++ r.2.2, none⟩

/-- The diff loop of main (main.go lines 115-130): a difference is computed
only for database names present in both sessions; a current name absent from
the last session is skipped. -/
def diffCollections (cur last : List (String × countCollection)) :
    List (String × countCollection) :=
  cur.filterMap fun p =>
    (lookupA p.1 last).map fun l => (p.1, getCountCollectionDifference p.2 l)

/-- How a run of main terminates: os.Exit(0), or a log.Panicf abort. -/
inductive Outcome
  | exitZero
  | panicked (msg : String)
  deriving DecidableEq, Repr

/-- Observable effects of one run of main after the collection loop. -/
structure RunTrace where
  outcome : Outcome
  written : Option (List (String × countCollection))
  diffs : Option (List (String × countCollection))
  publishCalled : Bool
  logs : List LogEvent

/-- The orchestration of main after the collection loop (main.go lines
95-146): when the counts file does not exist, write the current collections
and exit; otherwise load the last collections (a load failure panics),
diff, publish (a publish failure is only logged), and write the current
collections (a write failure panics). -/
def mainRun (cur : List (String × countCollection)) (countFileExists : Bool)
    (loadResult : Except String (List (String × countCollection)))
    (publishErr : Option String) (writeErr : Option String) : RunTrace :=
  if countFileExists = false then
    match writeErr with
    | some e => ⟨Outcome.panicked ("FATAL: Failed to write counts YAML: " ++ e), none, none, false, []⟩
    | none => ⟨Outcome.exitZero, some cur, none, false, []⟩
  else
    match loadResult with
    | Except.error e =>
        ⟨Outcome.panicked ("FATAL: Failed to load counts YAML: " ++ e), none, none, false, []⟩
    | Except.ok last =>
      let d := diffCollections cur last
      let plogs : List LogEvent :=
        match publishErr with
        | some e => [⟨Sev.error, "Failed to push Cloudwatch metrics: " ++ e⟩]
        | none => []
      match writeErr with
      | some e =>
          ⟨Outcome.panicked ("FATAL: Failed to save counts YAML: " ++ e), none, some d, true, plogs⟩
      | none => ⟨Outcome.exitZero, some cur, some d, true, plogs⟩

/-- Insert a keyed pair into a key-sorted list, used to model the sorted key
order in which yaml.v2 marshals Go maps. -/
def insertSortedByKey {α : Type} (p : String × α) :
    List (String × α) → List (String × α)
  | [] => [p]
  | q :: rest => if p.1 < q.1 then p :: q :: rest else q :: insertSortedByKey p rest

/-- Sort an association list by key, the order yaml.v2 emits map entries in. -/
def sortByKey {α : Type} (l : List (String × α)) : List (String × α) :=
  l.foldr insertSortedByKey []

/-- yaml.v2 marshalling of one `increment` or `row` sub-map of a
countCollection: an inline empty mapping when the map is empty, else one
indented `key: value` line per entry in sorted key order. -/
def marshalSubMap (field : String) (m : CountMap) : String :=
  match sortByKey m with
  | [] => "  " ++ field ++ ": \x7b\x7d\n"
  | entries => "  " ++ field ++ ":\n" ++
      String.join (entries.map fun p => "    " ++ p.1 ++ ": " ++ toString p.2 ++ "\n")

/-- yaml.Marshal of a `map[string]countCollection` (main.go line 531): one
block per database name in sorted order, each holding its `increment` and
`row` sub-maps. -/
def marshalCollections (cols : List (String × countCollection)) : String :=
  match sortByKey cols with
  | [] => "\x7b\x7d\n"
  | cs => String.join (cs.map fun p =>
      p.1 ++ ":\n" ++ marshalSubMap "increment" p.2.Increment ++ marshalSubMap "row" p.2.Row)

/-- Go fmt processing of a format string given zero operands, as
fmt.Fprintf(file, s) performs on its format argument: `%%` prints one
percent sign, any other verb prints as a missing-operand diagnostic, and a
trailing bare percent prints as a no-verb diagnostic. -/
def goFmtNoArgs : List Char → List Char
  | [] => []
  | '%' :: '%' :: rest => '%' :: goFmtNoArgs rest
  | ['%'] => '%' :: ('!' :: "(NOVERB)".data)
  | '%' :: c :: rest => '%' :: '!' :: c :: ("(MISSING)".data ++ goFmtNoArgs rest)
  | c :: rest => c :: goFmtNoArgs rest

/-- writeCountCollections from main.go lines 529-548: the file content that
reaches disk is the marshalled YAML passed through fmt.Fprintf as its FORMAT
string with no operands (main.go line 544). -/
def writeCountCollections (cols : List (String × countCollection)) : String :=
  String.mk (goFmtNoArgs (marshalCollections cols).data)

/-- Split a character stream into lines at newline characters. -/
def splitLines : List Char → List (List Char)
  | [] => [[]]
  | '\n' :: rest => [] :: splitLines rest
  | c :: rest =>
    match splitLines rest with
    | l :: ls => (c :: l) :: ls
    | [] => [[c]]

/-- Strip a given character prefix, returning the remainder when it matches. -/
def dropPrefixChars : List Char → List Char → Option (List Char)
  | [], rest => some rest
  | _ :: _, [] => none
  | p :: ps, c :: cs => if c = p then dropPrefixChars ps cs else none

/-- Split a line at its first `: ` separator. -/
def splitColonSpace : List Char → Option (List Char × List Char)
  | ':' :: ' ' :: rest => some ([], rest)
  | c :: rest =>
    match splitColonSpace rest with
    | some p => some (c :: p.1, p.2)
    | none => none
  | [] => none

/-- When a line ends in a colon, return what stands before the colon. -/
def dropLastColon : List Char → Option (List Char)
  | [] => none
  | [':'] => some []
  | [_] => none
  | c :: rest =>
    match dropLastColon rest with
    | some n => some (c :: n)
    | none => none

/-- Numeric value of a decimal digit character. -/
def digitVal (c : Char) : Option Nat :=
  if '0' ≤ c ∧ c ≤ '9' then some (c.toNat - '0'.toNat) else none

/-- Accumulate the decimal digits of a character list. -/
def parseNatAux : List Char → Nat → Option Nat
  | [], acc => some acc
  | c :: rest, acc =>
    match digitVal c with
    | some d => parseNatAux rest (acc * 10 + d)
    | none => none

/-- Parse a YAML integer scalar (an optional leading minus, then digits). -/
def parseIntChars : List Char → Option Int
  | [] => none
  | '-' :: rest =>
    if rest = [] then none
    else
      match parseNatAux rest 0 with
      | some n => some (-(n : Int))
      | none => none
  | cs =>
    match parseNatAux cs 0 with
    | some n => some ((n : Int))
    | none => none

/-- Parse one indented `key: value` entry line of a sub-map. -/
def parseEntryLineChars (line : List Char) : Option (String × Int) :=
  match dropPrefixChars "    ".data line with
  | some rest =>
    match splitColonSpace rest with
    | some (k, v) =>
      match parseIntChars v with
      | some n => some (String.mk k, n)
      | none => none
    | none => none
  | none => none

/-- Parse one `increment` or `row` sub-map block, returning the entries and
the remaining lines. -/
def parseSubMapChars (field : String) (lines : List (List Char)) :
    Option (CountMap × List (List Char)) :=
  match lines with
  | [] => none
  | l :: rest =>
    if l = ("  " ++ field ++ ": \x7b\x7d").data then some ([], rest)
    else if l = ("  " ++ field ++ ":").data then
      let entryLines := rest.takeWhile (fun s => (dropPrefixChars "    ".data s).isSome)
      let rest2 := rest.dropWhile (fun s => (dropPrefixChars "    ".data s).isSome)
      match entryLines.mapM parseEntryLineChars with
      | some m => some (m, rest2)
      | none => none
    else none

/-- Parse the top-level database blocks of a counts YAML document (fuelled
by the number of remaining lines). -/
def parseCollectionsChars : Nat → List (List Char) → Option (List (String × countCollection))
  | _, [] => some []
  | 0, _ :: _ => none
  | fuel + 1, l :: rest =>
    match l with
    | [] => none
    | c :: _ =>
      if c = ' ' then none
      else
        match dropLastColon l with
        | some nameChars =>
          match parseSubMapChars "increment" rest with
          | some (inc, r1) =>
            match parseSubMapChars "row" r1 with
            | some (row, r2) =>
              match parseCollectionsChars fuel r2 with
              | some cs => some ((String.mk nameChars, ⟨inc, row⟩) :: cs)
              | none => none
            | none => none
          | none => none
        | none => none

/-- loadCountCollections from main.go lines 508-525: yaml.Unmarshal of the
counts file content into a `map[string]countCollection`, modelled for the
document shapes writeCountCollections emits; a malformed document is an
error (`none`). -/
def loadCountCollections (content : String) : Option (List (String × countCollection)) :=
  let lines := (splitLines content.data).filter (fun l => l ≠ [])
  if lines = ["\x7b\x7d".data] then some []
  else parseCollectionsChars lines.length lines

/-- A concrete POSTGRES target with one table requested for each counter
kind. -/
def pgDemoConfig : databaseConfig :=
  ⟨"pgdb", "localhost:5432", "postgres", "u", "pw", "db", "", ⟨["events"], ["events"]⟩⟩

/-- A concrete MYSQL target with one table requested for each counter kind. -/
def mysqlDemoConfig : databaseConfig :=
  ⟨"mydb", "localhost:3306", "mysql", "u", "pw", "db", "", ⟨["orders"], ["sessions"]⟩⟩

/-- A concrete MYSQL target with both table sets empty. -/
def emptyTablesConfig : databaseConfig :=
  ⟨"mydb", "localhost:3306", "mysql", "u", "pw", "db", "", ⟨[], []⟩⟩

/-- A database environment in which opening succeeds and every query fails. -/
def failingEnv : DBEnv :=
  ⟨none, fun _ _ => Except.error "connection refused"⟩

/-- A database environment in which opening succeeds and every query returns
no rows. -/
def okEnv : DBEnv :=
  ⟨none, fun _ _ => Except.ok []⟩

/-- A concrete current snapshot: table `t` counted 7 in both maps. -/
def curDemo : countCollection := ⟨[("t", 7)], [("t", 7)]⟩

/-- A concrete previous snapshot: table `t` counted 10 in both maps. -/
def prevDemo : countCollection := ⟨[("t", 10)], [("t", 10)]⟩

/-- A concrete previous snapshot that holds only the unrelated table `u`. -/
def prevOther : countCollection := ⟨[("u", 5)], [("u", 5)]⟩

/-- A concrete collection whose database identifier holds a Go format verb. -/
def percentCollection : List (String × countCollection) :=
  [("db%d", ⟨[("t", 3)], []⟩)]

/-- What loading gives back after saving percentCollection: the identifier
as rewritten by the missing-operand diagnostic of the format pass. -/
def mangledCollection : List (String × countCollection) :=
  [("db%!d(MISSING)", ⟨[("t", 3)], []⟩)]

theorem diffEntry_fst (s : CountMap) (p : String × Int) : (diffEntry s p).1 = p.1 := by
  unfold diffEntry
  cases lookupA p.1 s <;> rfl

theorem keys_map_diffEntry (s m : CountMap) :
    (m.map (diffEntry s)).map Prod.fst = m.map Prod.fst := by
  induction m with
  | nil => rfl
  | cons p rest ih => simp [diffEntry_fst, ih]

theorem lookupA_map_diffEntry (s m : CountMap) (k : String) :
    lookupA k (m.map (diffEntry s)) =
      (lookupA k m).map (fun v =>
        match lookupA k s with
        | some sv => wrap64 (v - sv)
        | none => 0) := by
  induction m with
  | nil => rfl
  | cons p rest ih =>
    simp only [List.map_cons, lookupA, diffEntry_fst]
    by_cases h : p.1 = k
    · subst h
      simp only [if_pos rfl]
      cases hs : lookupA p.1 s <;> simp [diffEntry, hs]
    · simp [h, ih]

theorem wrap64_eq_self (x : Int) (h0 : -(2 ^ 63) ≤ x) (h1 : x < 2 ^ 63) :
    wrap64 x = x := by
  unfold wrap64
  omega

theorem splitAtMarker_pgStatBase :
    splitAtMarker pgStatBase.data = some (pgStatPre.data, pgStatPost.data) := by
  decide

/-- C1: for every table present in both the current and the previous
snapshot (independently for the Increment and the Row map, with both stored
counts in the non-negative signed 64-bit range the data model allows), the
diff maps that table to exactly current minus previous in integer
arithmetic, with no clamping: a negative result is returned as-is. -/
theorem C1_delta_exact_on_shared_keys (cur prev : countCollection) (t : String) (a b : Int)
    (ha0 : 0 ≤ a) (ha1 : a < 2 ^ 63) (hb0 : 0 ≤ b) (hb1 : b < 2 ^ 63) :
    (lookupA t cur.Increment = some a → lookupA t prev.Increment = some b →
      lookupA t (getCountCollectionDifference cur prev).Increment = some (a - b)) ∧
    (lookupA t cur.Row = some a → lookupA t prev.Row = some b →
      lookupA t (getCountCollectionDifference cur prev).Row = some (a - b)) := by
  constructor <;> intro hc hp <;>
    simp [getCountCollectionDifference, lookupA_map_diffEntry, hc, hp,
      wrap64_eq_self (a - b) (by omega) (by omega)]

/-- Witness for C1 at a concrete input whose delta is negative (7 - 10). -/
theorem C1_delta_exact_on_shared_keys_witness :
    (0 : Int) ≤ 7 ∧ (7 : Int) < 2 ^ 63 ∧ (0 : Int) ≤ 10 ∧ (10 : Int) < 2 ^ 63 ∧
    lookupA "t" (getCountCollectionDifference curDemo prevDemo).Increment = some (7 - 10) ∧
    lookupA "t" (getCountCollectionDifference curDemo prevDemo).Row = some (7 - 10) := by
  have h := C1_delta_exact_on_shared_keys curDemo prevDemo "t" 7 10
    (by decide) (by decide) (by decide) (by decide)
  exact ⟨by decide, by decide, by decide, by decide, h.1 rfl rfl, h.2 rfl rfl⟩

/-- C2: for every table present in the current snapshot but absent from the
previous one (independently for the Increment and the Row map), the diff
maps that table to exactly 0. -/
theorem C2_new_key_baseline_zero (cur prev : countCollection) (t : String) (a : Int) :
    (lookupA t cur.Increment = some a → lookupA t prev.Increment = none →
      lookupA t (getCountCollectionDifference cur prev).Increment = some 0) ∧
    (lookupA t cur.Row = some a → lookupA t prev.Row = none →
      lookupA t (getCountCollectionDifference cur prev).Row = some 0) := by
  constructor <;> intro hc hp <;>
    simp [getCountCollectionDifference, lookupA_map_diffEntry, hc, hp]

/-- Witness for C2: table `t` is new relative to a previous snapshot that
only holds table `u`. -/
theorem C2_new_key_baseline_zero_witness :
    lookupA "t" curDemo.Increment = some 7 ∧ lookupA "t" prevOther.Increment = none ∧
    lookupA "t" (getCountCollectionDifference curDemo prevOther).Increment = some 0 ∧
    lookupA "t" (getCountCollectionDifference curDemo prevOther).Row = some 0 := by
  have h := C2_new_key_baseline_zero curDemo prevOther "t" 7
  exact ⟨by decide, by decide, h.1 (by decide) (by decide), h.2 (by decide) (by decide)⟩

/-- C3: every key of the Increment map of the current snapshot appears among
the keys of the Increment map of the diff, and likewise for the Row maps: no
key of the current snapshot is silently dropped. -/
theorem C3_current_keys_appear_in_delta (cur prev : countCollection) (t : String) :
    (t ∈ cur.Increment.map Prod.fst →
      t ∈ (getCountCollectionDifference cur prev).Increment.map Prod.fst) ∧
    (t ∈ cur.Row.map Prod.fst →
      t ∈ (getCountCollectionDifference cur prev).Row.map Prod.fst) := by
  constructor <;> intro h <;>
    simpa only [getCountCollectionDifference, keys_map_diffEntry] using h

/-- Witness for C3 at a concrete input. -/
theorem C3_current_keys_appear_in_delta_witness :
    "t" ∈ curDemo.Increment.map Prod.fst ∧ "t" ∈ curDemo.Row.map Prod.fst ∧
    "t" ∈ (getCountCollectionDifference curDemo prevOther).Increment.map Prod.fst ∧
    "t" ∈ (getCountCollectionDifference curDemo prevOther).Row.map Prod.fst := by
  have h := C3_current_keys_appear_in_delta curDemo prevOther "t"
  exact ⟨by decide, by decide, h.1 (by decide), h.2 (by decide)⟩

theorem mk_data (s : String) : String.mk s.data = s := rfl

theorem buildOnePg_nonempty (tables : List String) (schema kw : String) (h : tables ≠ []) :
    buildOnePg pgStatBase tables schema kw =
      (pgStatQueryShape tables.length, tables ++ [schema], []) := by
  unfold buildOnePg sqlxIn
  rw [if_neg h, if_neg h, splitAtMarker_pgStatBase]
  simp [pgStatQueryShape, mk_data]

/-- C4: for a POSTGRES target with non-empty increment and row table sets,
the build phase derives both queries from the identical statistics-view
shape (live tuple count per relation), but records no log line at all at
build time — in particular no WARNING — contrary to the claim. -/
theorem C4_postgres_identical_queries_no_warning (cfg : databaseConfig) (dbSchema : String)
    (hty : cfg.«Type» = "postgres")
    (hinc : cfg.Tables.Increment ≠ []) (hrow : cfg.Tables.Row ≠ []) :
    (buildQueries cfg dbSchema).logs = [] ∧
    (buildQueries cfg dbSchema).incrementQuery =
      pgStatQueryShape cfg.Tables.Increment.length ∧
    (buildQueries cfg dbSchema).rowQuery = pgStatQueryShape cfg.Tables.Row.length := by
  unfold buildQueries
  rw [hty, if_neg (by decide), if_pos rfl,
    buildOnePg_nonempty _ _ _ hinc, buildOnePg_nonempty _ _ _ hrow]
  exact ⟨rfl, rfl, rfl⟩

/-- Witness for C4 at a concrete POSTGRES target requesting one table for
each counter kind: no log line is recorded and the two query strings are
identical. -/
theorem C4_postgres_identical_queries_no_warning_witness :
    pgDemoConfig.«Type» = "postgres" ∧ pgDemoConfig.Tables.Increment ≠ [] ∧
    pgDemoConfig.Tables.Row ≠ [] ∧
    (buildQueries pgDemoConfig "public").logs = [] ∧
    (buildQueries pgDemoConfig "public").incrementQuery = pgStatQueryShape 1 ∧
    (buildQueries pgDemoConfig "public").rowQuery = pgStatQueryShape 1 ∧
    (buildQueries pgDemoConfig "public").incrementQuery =
      (buildQueries pgDemoConfig "public").rowQuery := by
  have h := C4_postgres_identical_queries_no_warning pgDemoConfig "public" rfl
    (by decide) (by decide)
  refine ⟨rfl, by decide, by decide, h.1, by simpa using h.2.1, by simpa using h.2.2, ?_⟩
  exact (by simpa using h.2.1 : _ = pgStatQueryShape 1).trans
    ((by simpa using h.2.2 : _ = pgStatQueryShape 1)).symm

/-- C5: on a run where no prior counts file exists, the run computes no
diff and calls no publish, but writes the current collections and exits
with status zero (whatever the unused load and publish oracles hold). -/
theorem C5_first_run_saves_without_diff_or_publish
    (cur : List (String × countCollection))
    (loadResult : Except String (List (String × countCollection)))
    (publishErr : Option String) :
    (mainRun cur false loadResult publishErr none).diffs = none ∧
    (mainRun cur false loadResult publishErr none).publishCalled = false ∧
    (mainRun cur false loadResult publishErr none).written = some cur ∧
    (mainRun cur false loadResult publishErr none).outcome = Outcome.exitZero := by
  simp [mainRun]

/-- C7: on a run where a prior counts collection was loaded, the current
collections are written and the run exits with status zero for every
possible publish result, so a publish error neither suppresses the save nor
changes the exit status. -/
theorem C7_save_and_exit_despite_publish_error
    (cur last : List (String × countCollection)) (publishErr : Option String) :
    (mainRun cur true (Except.ok last) publishErr none).written = some cur ∧
    (mainRun cur true (Except.ok last) publishErr none).outcome = Outcome.exitZero ∧
    (mainRun cur true (Except.ok last) publishErr none).outcome =
      (mainRun cur true (Except.ok last) none none).outcome := by
  simp [mainRun]

theorem runQueryPhase_kinds (kind : QueryKind) (q : String) (args : List String)
    (env : DBEnv) (m : CountMap) (dbName : String) :
    ∀ x ∈ (runQueryPhase kind q args env m dbName).2.1, x.1 = kind := by
  unfold runQueryPhase
  by_cases h : q ≠ "" ∧ args ≠ []
  · rw [if_pos h]
    cases henv : env.query q args <;> simp
  · rw [if_neg h]
    simp

theorem runQueryPhase_empty_query (kind : QueryKind) (args : List String)
    (env : DBEnv) (m : CountMap) (dbName : String) :
    runQueryPhase kind "" args env m dbName = (m, [], []) := by
  unfold runQueryPhase
  rw [if_neg (by simp)]

theorem rebindDollar_empty : rebindDollar "" = "" := rfl

theorem buildQueries_increment_empty (cfg : databaseConfig) (dbSchema : String)
    (h : cfg.Tables.Increment = []) :
    (buildQueries cfg dbSchema).incrementQuery = "" ∧
    (buildQueries cfg dbSchema).incrementArgs = [] := by
  unfold buildQueries
  by_cases h1 : cfg.«Type» = "mysql"
  · rw [if_pos h1]
    simp [buildOne, h]
  · rw [if_neg h1]
    by_cases h2 : cfg.«Type» = "postgres"
    · rw [if_pos h2]
      simp [buildOnePg, h, rebindDollar_empty]
    · rw [if_neg h2]
      simp [buildOne, h]

theorem buildQueries_row_empty (cfg : databaseConfig) (dbSchema : String)
    (h : cfg.Tables.Row = []) :
    (buildQueries cfg dbSchema).rowQuery = "" ∧
    (buildQueries cfg dbSchema).rowArgs = [] := by
  unfold buildQueries
  by_cases h1 : cfg.«Type» = "mysql"
  · rw [if_pos h1]
    simp [buildOne, h]
  · rw [if_neg h1]
    by_cases h2 : cfg.«Type» = "postgres"
    · rw [if_pos h2]
      simp [buildOnePg, h, rebindDollar_empty]
    · rw [if_neg h2]
      simp [buildOne, h]

theorem getCountCollection_open_ok (cfg : databaseConfig) (env : DBEnv)
    (hopen : env.openErr = none) :
    getCountCollection cfg env =
      (let b := buildQueries cfg (resolveSchema cfg)
       let i := runQueryPhase QueryKind.increment b.incrementQuery b.incrementArgs env [] cfg.Name
       let r := runQueryPhase QueryKind.row b.rowQuery b.rowArgs env [] cfg.Name
       ⟨⟨i.1, r.1⟩, i.2.1 ++ r.2.1, b.logs ++ i.2.2 ++ r.2.2, none⟩) := by
  unfold getCountCollection
  rw [hopen]

/-- C8: a target whose increment table set is empty executes no
increment-kind query, a target whose row table set is empty executes no
row-kind query, and in either case the collect operation raises no error. -/
theorem C8_empty_table_set_suppresses_query (cfg : databaseConfig) (env : DBEnv)
    (hopen : env.openErr = none) :
    (cfg.Tables.Increment = [] →
      QueryKind.increment ∉ ((getCountCollection cfg env).executed.map Prod.fst)) ∧
    (cfg.Tables.Row = [] →
      QueryKind.row ∉ ((getCountCollection cfg env).executed.map Prod.fst)) ∧
    (getCountCollection cfg env).err = none := by
  rw [getCountCollection_open_ok cfg env hopen]
  simp only []
  refine ⟨?_, ?_, by trivial⟩
  · intro h hmem
    obtain ⟨hq, ha⟩ := buildQueries_increment_empty cfg (resolveSchema cfg) h
    rw [hq, runQueryPhase_empty_query] at hmem
    simp only [List.nil_append, List.mem_map] at hmem
    obtain ⟨x, hx, hfst⟩ := hmem
    have := runQueryPhase_kinds QueryKind.row _ _ env [] cfg.Name x hx
    rw [this] at hfst
    exact QueryKind.noConfusion hfst
  · intro h hmem
    obtain ⟨hq, ha⟩ := buildQueries_row_empty cfg (resolveSchema cfg) h
    rw [hq, runQueryPhase_empty_query] at hmem
    simp only [List.append_nil, List.mem_map] at hmem
    obtain ⟨x, hx, hfst⟩ := hmem
    have := runQueryPhase_kinds QueryKind.increment _ _ env [] cfg.Name x hx
    rw [this] at hfst
    exact QueryKind.noConfusion hfst

/-- Witness for C8 at a concrete target with both table sets empty. -/
theorem C8_empty_table_set_suppresses_query_witness :
    emptyTablesConfig.Tables.Increment = [] ∧ emptyTablesConfig.Tables.Row = [] ∧
    QueryKind.increment ∉
      ((getCountCollection emptyTablesConfig okEnv).executed.map Prod.fst) ∧
    QueryKind.row ∉
      ((getCountCollection emptyTablesConfig okEnv).executed.map Prod.fst) ∧
    (getCountCollection emptyTablesConfig okEnv).err = none := by
  have h := C8_empty_table_set_suppresses_query emptyTablesConfig okEnv rfl
  exact ⟨rfl, rfl, h.1 rfl, h.2.1 rfl, h.2.2⟩

theorem runQueryPhase_all_error (kind : QueryKind) (q : String) (args : List String)
    (env : DBEnv) (m : CountMap) (dbName : String)
    (h : ∀ qq aa, ∃ e, env.query qq aa = Except.error e) :
    (runQueryPhase kind q args env m dbName).1 = m := by
  unfold runQueryPhase
  by_cases hg : q ≠ "" ∧ args ≠ []
  · rw [if_pos hg]
    obtain ⟨e, he⟩ := h q args
    rw [he]
  · rw [if_neg hg]

/-- C10: when the connection opens but every query fails at query time, the
collect operation returns a snapshot with both maps initialized and empty,
together with a nil error: the failure is not reported to the caller. -/
theorem C10_query_failures_yield_empty_snapshot_and_nil_error
    (cfg : databaseConfig) (env : DBEnv) (hopen : env.openErr = none)
    (hq : ∀ q args, ∃ e, env.query q args = Except.error e) :
    (getCountCollection cfg env).cc.Increment = [] ∧
    (getCountCollection cfg env).cc.Row = [] ∧
    (getCountCollection cfg env).err = none := by
  rw [getCountCollection_open_ok cfg env hopen]
  exact ⟨runQueryPhase_all_error _ _ _ _ _ _ hq, runQueryPhase_all_error _ _ _ _ _ _ hq, rfl⟩

/-- Witness for C10: a target requesting tables of both kinds, against an
environment whose every query fails. -/
theorem C10_query_failures_yield_empty_snapshot_and_nil_error_witness :
    (getCountCollection mysqlDemoConfig failingEnv).cc.Increment = [] ∧
    (getCountCollection mysqlDemoConfig failingEnv).cc.Row = [] ∧
    (getCountCollection mysqlDemoConfig failingEnv).err = none :=
  C10_query_failures_yield_empty_snapshot_and_nil_error mysqlDemoConfig failingEnv rfl
    (fun _ _ => ⟨"connection refused", rfl⟩)

theorem roundtrip_ok_demo :
    loadCountCollections (writeCountCollections [("db", ⟨[("t", 3)], [("u", 4)]⟩)]) =
      some [("db", ⟨[("t", 3)], [("u", 4)]⟩)] := by
  decide

/-- C6: save then load is not the identity on every collection: a database
identifier holding a format verb is rewritten by the fmt.Fprintf
format-string pass inside writeCountCollections, so the loaded mapping
differs from the saved one in its identifier key. -/
theorem C6_roundtrip_fails_on_format_verb :
    loadCountCollections (writeCountCollections percentCollection) =
      some mangledCollection ∧
    loadCountCollections (writeCountCollections percentCollection) ≠
      some percentCollection :=
  ⟨by decide, by decide⟩

/-- C9: the diff introduces no key beyond those of the current snapshot: its
key lists equal those of the current snapshot exactly, for both maps. -/
theorem C9_delta_keys_equal_current_keys (cur prev : countCollection) :
    (getCountCollectionDifference cur prev).Increment.map Prod.fst =
      cur.Increment.map Prod.fst ∧
    (getCountCollectionDifference cur prev).Row.map Prod.fst =
      cur.Row.map Prod.fst :=
  ⟨keys_map_diffEntry _ _, keys_map_diffEntry _ _⟩

end RowMetrics
